import Mathlib

/-!
Verification of the core rules of the Fancards card-collecting bot.

The definitions below are shallow embeddings of the corresponding Python
functions of the repository (files `source/enums.py`, `source/cogs/card.py`,
`source/cogs/forge.py`, `source/cogs/item.py`, `source/entity.py`,
`source/utils/view.py`).  Python dictionaries of weights are modelled as
association lists with exact rational weights, machine integers as `Nat`/`Int`,
database rows as explicit records, and each handler as a pure function from an
explicit player state to an outcome together with the successor state.
-/

namespace Fancards

/-- Card rarities (`source/enums.py`, class `Rarity`). -/
inductive Rarity
  | common
  | uncommon
  | rare
  | epic
  | mythic
  | legendary
  | exotic
  | nightmare
  | exclusive_icicle
  deriving DecidableEq

/-- Card conditions (`source/enums.py`, class `Condition`). -/
inductive Condition
  | damaged
  | poor
  | good
  | near_mint
  | mint
  | pristine
  deriving DecidableEq

/-- Special rarities (`source/enums.py`, class `SpecialRarity`). -/
inductive SpecialRarity
  | unknown
  | shiny
  deriving DecidableEq

/-- Items (`source/enums.py`, class `Item`). -/
inductive Item
  | glistening_gem
  | fusion_crystal
  | card_sleeve
  | premium_drop
  | crown
  | backpack_upgrade
  | rare_card_pack
  | epic_card_pack
  | mythic_card_pack
  | legendary_card_pack
  | exotic_card_pack
  deriving DecidableEq

/-- Silver-yield range of a rarity (`Rarity.to_silver`); the Python mapping
raises `KeyError` on the remaining rarities, modelled by `none`. -/
def Rarity.toSilver : Rarity → Option (Nat × Nat)
  | .common => some (10, 40)
  | .uncommon => some (50, 75)
  | .rare => some (100, 350)
  | .epic => some (500, 750)
  | .mythic => some (1000, 4750)
  | .legendary => some (5000, 9750)
  | _ => none

/-- Star yield of a condition (`Condition.to_star`). -/
def Condition.toStar : Condition → Nat
  | .damaged => 3
  | .poor => 12
  | .good => 33
  | .near_mint => 72
  | .mint => 138
  | .pristine => 228

/-- Rarities that are too valuable to burn or fuse
(`Rarity.get_valuable_rarities` = `[exotic, nightmare] + exclusive`). -/
def Rarity.valuableRarities : List Rarity :=
  [Rarity.exotic, Rarity.nightmare, Rarity.exclusive_icicle]

/-- A row of the `cards` table (`source/utils/psql.py`, `CardTable`). -/
structure CardRow where
  cardId : String
  characterName : String
  rarity : Rarity
  condition : Condition
  specialRarity : SpecialRarity
  locked : Bool
  hasSleeve : Bool
  deriving DecidableEq

/-- The mutable per-player state touched by the handlers modelled here:
the star balance, the owned cards, and the item inventory. -/
structure PlayerState where
  star : Int
  cards : List CardRow
  inventory : List (Item × Int)
  deriving DecidableEq

/-! ### Special-rarity weights (claim C1)

`CardFactory.generate_special_rarity` (`source/cogs/card.py`).  The weight
dictionaries of `NewUserWeight`, `BasicWeight` and `PremiumWeight`
(`source/enums.py`) are embedded as association lists of exact rationals. -/

/-- First-match lookup in an association list of weights. -/
def wlookup {α : Type} [DecidableEq α] : List (α × ℚ) → α → Option ℚ
  | [], _ => none
  | (a, w) :: rest, k => if a = k then some w else wlookup rest k

/-- Total weight of a special-rarity table. -/
def sumWeights (t : List (SpecialRarity × ℚ)) : ℚ :=
  (t.map Prod.snd).sum

/-- `NewUserWeight.special_rarity` = `{unknown: 100}`. -/
def newUserSpecialRarityWeight : List (SpecialRarity × ℚ) :=
  [(SpecialRarity.unknown, 100)]

/-- `BasicWeight.special_rarity` = `{unknown: 99.95, shiny: 0.05}`. -/
def basicSpecialRarityWeight : List (SpecialRarity × ℚ) :=
  [(SpecialRarity.unknown, 1999/20), (SpecialRarity.shiny, 1/20)]

/-- `PremiumWeight.special_rarity` = `{unknown: 99.8, shiny: 0.2}`. -/
def premiumSpecialRarityWeight : List (SpecialRarity × ℚ) :=
  [(SpecialRarity.unknown, 499/5), (SpecialRarity.shiny, 1/5)]

/-- The weight dictionary built by `generate_special_rarity` when the acting
member is a patreon: `shiny_weight = special_rarity.get(shiny, 0.01) * 2` and
then `special_rarity[unknown] -= shiny_weight`.  Note that the source never
writes `shiny_weight` back into the `shiny` entry. -/
def patreonSpecialRarityWeights (t : List (SpecialRarity × ℚ)) : List (SpecialRarity × ℚ) :=
  let shinyWeight := 2 * ((wlookup t SpecialRarity.shiny).getD (1/100))
  t.map (fun p => if p.1 = SpecialRarity.unknown then (p.1, p.2 - shinyWeight) else p)

/-- The weights actually passed to `random.choices` by
`generate_special_rarity`, as a function of the patreon check. -/
def specialRarityWeightsUsed (isPatreonMember : Bool) (t : List (SpecialRarity × ℚ)) :
    List (SpecialRarity × ℚ) :=
  if isPatreonMember then patreonSpecialRarityWeights t else t

/-! ### Craft confirmation (claim C2)

`_confirm_forge_craft_final` (`source/cogs/forge.py`). -/

/-- Outcome of the final craft confirmation step.  The two rejection outcomes
also reset the command cooldown in the source. -/
inductive CraftOutcome
  | missingCharacter (name : String)
  | missingItem (it : Item)
  | crafted
  deriving DecidableEq

/-- First-match lookup in the inventory (`Inventory.get_item`); `none` models
an absent row. -/
def invLookup : List (Item × Int) → Item → Option Int
  | [], _ => none
  | (it, amt) :: rest, k => if it = k then some amt else invLookup rest k

/-- One `Inventory.remove_item` call: `amount = amount - n` on the matching
row (the table has one row per item and owner). -/
def removeItem (inv : List (Item × Int)) (it : Item) (amount : Int) : List (Item × Int) :=
  inv.map (fun p => if p.1 = it then (p.1, p.2 - amount) else p)

/-- The item-removal loop of `_confirm_forge_craft_final`. -/
def removeItems : List (Item × Int) → List (Item × Int) → List (Item × Int)
  | [], inv => inv
  | (it, amt) :: rest, inv => removeItems rest (removeItem inv it amt)

/-- The required-character re-check loop of `_confirm_forge_craft_final`:
`get_cards_by_character_name` returns `None` on an empty result (the
`isEmpty` branch), then the unlocked cards are counted against the
requirement.  Returns the first missing character name, if any. -/
def checkCharacters (reqChars : List (String × Int)) (cards : List CardRow) : Option String :=
  match reqChars with
  | [] => none
  | (name, amt) :: rest =>
    let owned := cards.filter (fun c => c.characterName == name)
    if owned.isEmpty then some name
    else
      let unlocked := owned.filter (fun c => !c.locked)
      if (unlocked.length : Int) < amt then some name else checkCharacters rest cards

/-- The required-item re-check loop of `_confirm_forge_craft_final`.
Returns the first missing item, if any. -/
def checkItems (reqItems : List (Item × Int)) (inv : List (Item × Int)) : Option Item :=
  match reqItems with
  | [] => none
  | (it, amt) :: rest =>
    match invLookup inv it with
    | none => some it
    | some owned => if owned < amt then some it else checkItems rest inv

/-- `_confirm_forge_craft_final`: re-checks required characters and required
items; on success removes the required items, subtracts the star cost
(without re-checking the balance), deletes the consumed cards and inserts the
crafted card.  Every rejection leaves the state untouched. -/
def confirmForgeCraftFinal (starCost : Int) (reqChars : List (String × Int))
    (reqItems : List (Item × Int)) (requiredCardIds : List String) (crafted : CardRow)
    (s : PlayerState) : CraftOutcome × PlayerState :=
  match checkCharacters reqChars s.cards with
  | some name => (CraftOutcome.missingCharacter name, s)
  | none =>
    match checkItems reqItems s.inventory with
    | some it => (CraftOutcome.missingItem it, s)
    | none =>
      let inv := removeItems reqItems s.inventory
      let remaining := s.cards.filter (fun c => !(requiredCardIds.contains c.cardId))
      (CraftOutcome.crafted,
        { star := s.star - starCost, cards := remaining ++ [crafted], inventory := inv })

/-! ### Fusion prechecks (claim C3)

The validation chain of `forge_fusion` (`source/cogs/forge.py`), in source
order, for two cards of the acting owner. -/

/-- Result of the fusion validation chain. -/
inductive FusionCheck
  | rejectNotSameRarity
  | rejectShinyMismatch
  | rejectTooValuable
  | proceed
  deriving DecidableEq

/-- The three card-shape checks of `forge_fusion`, in source order:
rarity equality, then `(card1.special_rarity is not card2.special_rarity) and
card1.special_rarity is shiny`, then the too-valuable check. -/
def fusionPrecheck (card1 card2 : CardRow) : FusionCheck :=
  if card1.rarity ≠ card2.rarity then FusionCheck.rejectNotSameRarity
  else if card1.specialRarity ≠ card2.specialRarity ∧ card1.specialRarity = SpecialRarity.shiny then
    FusionCheck.rejectShinyMismatch
  else if card1.rarity ∈ Rarity.valuableRarities then FusionCheck.rejectTooValuable
  else FusionCheck.proceed

/-! ### Shop pricing (claim C4)

`item_buy` (`source/cogs/item.py`): the patreon branch recomputes the unit
price as `round(base_price - base_price*0.2)` but the charged amount is
`total_price = item_entity.price * amount_to_buy`. -/

/-- Round-half-to-even, the rounding used by the Python builtin `round`. -/
def pyRoundHalfEven (q : ℚ) : Int :=
  let f := Int.floor q
  let r := q - f
  if r < 1/2 then f
  else if 1/2 < r then f + 1
  else if f % 2 = 0 then f else f + 1

/-- The two prices computed by `item_buy`: the unit price rendered in the
confirmation embed and the total that `_confirm_item_buy` deducts. -/
structure BuyPricing where
  displayedUnit : Int
  total : Int
  deriving DecidableEq

/-- Price computation of `item_buy` for a purchasable non-backpack item. -/
def itemBuyPricing (price : Nat) (amountToBuy : Nat) (isPatreonMember : Bool) : BuyPricing :=
  let basePrice : Int :=
    if isPatreonMember then pyRoundHalfEven ((price : ℚ) - (price : ℚ) * (1/5))
    else (price : Int)
  { displayedUnit := basePrice, total := (price : Int) * (amountToBuy : Int) }

/-! ### Backpack limits (claim C5) -/

/-- The backpack-full test of `_CardDropButton.callback`
(`source/cogs/card.py`, `card_count >= backpack_level*500`). -/
def dropGrabBackpackFull (cardCount backpackLevel : Nat) : Prop :=
  backpackLevel * 500 ≤ cardCount

/-- The backpack-full test of `_confirm_item_use` for card packs
(`source/cogs/item.py`, `(backpack_level < 5) and (len(cards) > backpack_level*500)`). -/
def packUseBackpackFull (cardCount backpackLevel : Nat) : Prop :=
  backpackLevel < 5 ∧ backpackLevel * 500 < cardCount

/-- The card limit rendered by `card_collection` (`source/cogs/card.py`,
`backpack_level*500 if backpack_level < 5 else None`). -/
def collectionCardLimit (backpackLevel : Nat) : Option Nat :=
  if backpackLevel < 5 then some (backpackLevel * 500) else none

/-! ### Card burning (claims C6 and C7)

`_handle_single_card_burn` (`source/cogs/card.py`).  The sampled base silver
`random.randint(*card.rarity.to_silver())` and the full-day age
`min(days, 60)` enter as parameters. -/

/-- Result of the burn handler: either a rejection (before any reward is
computed) or the proposed reward presented for confirmation. -/
inductive BurnResult
  | rejectedTooValuable
  | rejectedLocked
  | proposed (totalSilver totalStar : Nat)
  deriving DecidableEq

/-- The burn handler step together with whether it reset the command
cooldown on its way out. -/
structure BurnStep where
  result : BurnResult
  cooldownReset : Bool
  deriving DecidableEq

/-- `_handle_single_card_burn`: too-valuable check, locked check (both reset
the cooldown and reject), then the reward computation with the per-day bonus
sums of `rarity_to_silver // 4` and `condition.to_star() // 4`. -/
def handleSingleCardBurn (c : CardRow) (rarityToSilver : Nat) (daysSinceCreation : Nat) :
    BurnStep :=
  if c.rarity ∈ Rarity.valuableRarities then
    { result := BurnResult.rejectedTooValuable, cooldownReset := true }
  else if c.locked then
    { result := BurnResult.rejectedLocked, cooldownReset := true }
  else
    let days := min daysSinceCreation 60
    let additionalSilverPerDay := (List.replicate days (rarityToSilver / 4)).sum
    let additionalStarPerDay := (List.replicate days (c.condition.toStar / 4)).sum
    { result := BurnResult.proposed (rarityToSilver + additionalSilverPerDay)
        (c.condition.toStar + additionalStarPerDay),
      cooldownReset := false }

/-- The burn handler with the player state made explicit: the handler only
builds the confirmation prompt, so the state is returned unchanged (any
mutation happens in `_confirm_single_card_burn`, which is registered only on
the proposed path). -/
def handleSingleCardBurnRun (c : CardRow) (rarityToSilver daysSinceCreation : Nat)
    (s : PlayerState) : BurnStep × PlayerState :=
  (handleSingleCardBurn c rarityToSilver daysSinceCreation, s)

/-! ### Pack opening (claim C8)

`source/entity.py`: `_generate_leaked_card` and the five `_use_*_card_pack`
handlers.  The `random.randint` sub-counts and the leak roll enter as
parameters; the contents are recorded as (rarity, amount) bands exactly as
they are passed to `CardFactory.generate_card`. -/

/-- Contents of a pack: the leaked cards prepended to `cards`, then the
rarity bands generated by `_generate_card_pack_contents`. -/
structure PackContents where
  leaked : List (Rarity × Nat)
  bands : List (Rarity × Nat)
  deriving DecidableEq

/-- Total number of cards a pack produces. -/
def packTotal (p : PackContents) : Nat :=
  ((p.leaked ++ p.bands).map Prod.snd).sum

/-- `_generate_leaked_card`: on a successful roll, one card of the leak
rarity is generated and the band count it deducts from loses one. -/
def generateLeakedCard (leakRarity : Rarity) (leakSucceeds : Bool) (deductFrom : Nat) :
    List (Rarity × Nat) × Nat :=
  if leakSucceeds then ([(leakRarity, 1)], deductFrom - 1) else ([], deductFrom)

/-- `_use_rare_card_pack`: budget 7, `rare_cards = randint(2, 4)`,
`uncommon_cards = 7 - rare_cards`, leak of an epic card (20%). -/
def useRareCardPack (rareCards : Nat) (leak : Bool) : PackContents :=
  let maxCards := 7
  let uncommonCards := maxCards - rareCards
  let deducted := generateLeakedCard Rarity.epic leak rareCards
  { leaked := deducted.1,
    bands := [(Rarity.rare, deducted.2), (Rarity.uncommon, uncommonCards)] }

/-- `_use_epic_card_pack`: budget 7, `epic_cards = randint(1, 2)`,
`rare_cards = randint(0, 7 - epic_cards)`, remainder uncommon, leak of a
mythic card (10%). -/
def useEpicCardPack (epicCards rareCards : Nat) (leak : Bool) : PackContents :=
  let maxCards := 7
  let uncommonCards := maxCards - (epicCards + rareCards)
  let deducted := generateLeakedCard Rarity.mythic leak epicCards
  { leaked := deducted.1,
    bands := [(Rarity.epic, deducted.2), (Rarity.rare, rareCards),
      (Rarity.uncommon, uncommonCards)] }

/-- `_use_mythic_card_pack`: budget 5, one mythic, `epic_cards = randint(1, 2)`,
remainder rare, leak of a legendary card (1%). -/
def useMythicCardPack (epicCards : Nat) (leak : Bool) : PackContents :=
  let maxCards := 5
  let mythicCards := 1
  let rareCards := maxCards - (mythicCards + epicCards)
  let deducted := generateLeakedCard Rarity.legendary leak mythicCards
  { leaked := deducted.1,
    bands := [(Rarity.mythic, deducted.2), (Rarity.epic, epicCards),
      (Rarity.rare, rareCards)] }

/-- `_use_legendary_card_pack`: budget 5, one legendary,
`mythic_cards = randint(0, 1)`, `epic_cards = abs(mythic_cards - 1)`,
remainder rare, leak of an exotic card (0.1%). -/
def useLegendaryCardPack (mythicCards : Nat) (leak : Bool) : PackContents :=
  let maxCards := 5
  let legendaryCards := 1
  let epicCards := ((mythicCards : Int) - 1).natAbs
  let rareCards := maxCards - (legendaryCards + mythicCards + epicCards)
  let deducted := generateLeakedCard Rarity.exotic leak legendaryCards
  { leaked := deducted.1,
    bands := [(Rarity.legendary, deducted.2), (Rarity.mythic, mythicCards),
      (Rarity.epic, epicCards), (Rarity.rare, rareCards)] }

/-- `_use_exotic_card_pack`: budget 5, `exotic_cards = randint(0, 1)`,
`legendary_cards = randint(0, 2)`, `mythic_cards = randint(0, 1)`, remainder
epic.  No leak roll is performed. -/
def useExoticCardPack (exoticCards legendaryCards mythicCards : Nat) : PackContents :=
  let maxCards := 5
  let epicCards := maxCards - (exoticCards + legendaryCards + mythicCards)
  { leaked := [],
    bands := [(Rarity.exotic, exoticCards), (Rarity.legendary, legendaryCards),
      (Rarity.mythic, mythicCards), (Rarity.epic, epicCards)] }

/-! ### Pack-mode condition sampling (claim C9)

`CardFactory.generate_card` (`source/cogs/card.py`): in pack mode the
condition is re-sampled from a fixed dictionary, overriding both a fixed
`condition` argument and the weight table. -/

/-- Cumulative weighted selection, the semantics of `random.choices` for one
draw: the selector `x` ranges over `[0, total)`. -/
def choose {α : Type} : List (α × ℚ) → ℚ → Option α
  | [], _ => none
  | (a, w) :: rest, x => if x < w then some a else choose rest (x - w)

/-- The fixed pack-mode condition weights
`{pristine: 10, mint: 80, near_mint: 10}`. -/
def packConditionWeight : List (Condition × ℚ) :=
  [(Condition.pristine, 10), (Condition.mint, 80), (Condition.near_mint, 10)]

/-- The condition assigned to one card by `generate_card`: the fixed argument
or a table draw, overridden by a draw from `packConditionWeight` when
`pack` is set. -/
def generateCardCondition (pack : Bool) (fixedCondition : Option Condition)
    (conditionTable : List (Condition × ℚ)) (tableChoice packChoice : ℚ) : Option Condition :=
  let c0 :=
    match fixedCondition with
    | some c => some c
    | none => choose conditionTable tableChoice
  if pack then choose packConditionWeight packChoice else c0

/-! ### Confirmation workflow (claim C10)

`wait_for_confirmation` (`source/utils/view.py`): `view.value` is `None` on
timeout, `True` on accept, `False` on decline. -/

/-- The three ways a confirmation session can end. -/
inductive SessionOutcome
  | expired
  | confirmed
  | declined
  deriving DecidableEq

/-- Observable effects of `wait_for_confirmation`. -/
structure SessionEffect where
  commitInvoked : Bool
  cooldownReset : Bool
  deriving DecidableEq

/-- `wait_for_confirmation`: on `None` (timeout) the cooldown is reset when
the command is cooldown-gated and the callback is not invoked; on `True` the
callback is invoked; on `False` nothing happens. -/
def waitForConfirmation (outcome : SessionOutcome) (cooldownGated : Bool) : SessionEffect :=
  match outcome with
  | SessionOutcome.expired => { commitInvoked := false, cooldownReset := cooldownGated }
  | SessionOutcome.confirmed => { commitInvoked := true, cooldownReset := false }
  | SessionOutcome.declined => { commitInvoked := false, cooldownReset := false }

/-! ### Concrete inputs used by counterexamples and witnesses -/

/-- An unlocked common card used as craft material and burn input. -/
def blobCard : CardRow :=
  { cardId := "abc123", characterName := "Blob", rarity := Rarity.rare,
    condition := Condition.mint, specialRarity := SpecialRarity.unknown,
    locked := false, hasSleeve := false }

/-- The card produced by the craft in the C2 scenario. -/
def craftedCard : CardRow :=
  { cardId := "zzz999", characterName := "Blob", rarity := Rarity.rare,
    condition := Condition.mint, specialRarity := SpecialRarity.unknown,
    locked := false, hasSleeve := false }

/-- A player who satisfies the card and item requirements of the C2 craft but
holds zero stars. -/
def poorCrafter : PlayerState :=
  { star := 0, cards := [blobCard], inventory := [(Item.fusion_crystal, 1)] }

/-- A player with an empty inventory. -/
def emptyHanded : PlayerState :=
  { star := 1000, cards := [blobCard], inventory := [] }

/-- A locked common card. -/
def lockedCommonCard : CardRow :=
  { cardId := "lock01", characterName := "Blob", rarity := Rarity.common,
    condition := Condition.good, specialRarity := SpecialRarity.unknown,
    locked := true, hasSleeve := false }

/-- An unlocked, non-valuable common card in good condition. -/
def plainCommonCard : CardRow :=
  { cardId := "pln001", characterName := "Blob", rarity := Rarity.common,
    condition := Condition.good, specialRarity := SpecialRarity.unknown,
    locked := false, hasSleeve := false }

/-- A non-shiny common card for the fusion scenarios. -/
def dullCard : CardRow :=
  { cardId := "dull01", characterName := "Blob", rarity := Rarity.common,
    condition := Condition.good, specialRarity := SpecialRarity.unknown,
    locked := false, hasSleeve := false }

/-- A shiny common card for the fusion scenarios. -/
def shinyCard : CardRow :=
  { cardId := "shin01", characterName := "Blob", rarity := Rarity.common,
    condition := Condition.good, specialRarity := SpecialRarity.shiny,
    locked := false, hasSleeve := false }

/-! ## Theorems -/

/-- Key-preserving lookup through the patreon weight adjustment map: the map
rewrites only the weight of `unknown` entries. -/
theorem wlookup_subtract_at_unknown (t : List (SpecialRarity × ℚ)) (w : ℚ) (k : SpecialRarity) :
    wlookup (t.map (fun p => if p.1 = SpecialRarity.unknown then (p.1, p.2 - w) else p)) k =
      (wlookup t k).map (fun x => if k = SpecialRarity.unknown then x - w else x) := by
  induction t with
  | nil => cases k <;> rfl
  | cons p rest ih =>
    obtain ⟨a, b⟩ := p
    cases a <;> cases k <;> simp_all [wlookup]

/-- Claim C1, counterexample: for the basic weight table the patreon-adjusted
weights do not give the shiny entry the doubled weight `2 * 0.05 = 0.1`, and
the total weight is not preserved (it drops from 100 to 99.9). -/
theorem patreon_shiny_weights_counterexample :
    wlookup (specialRarityWeightsUsed true basicSpecialRarityWeight) SpecialRarity.shiny ≠
        some (2 * (1/20 : ℚ)) ∧
      sumWeights (specialRarityWeightsUsed true basicSpecialRarityWeight) ≠
        sumWeights basicSpecialRarityWeight := by
  constructor <;>
    simp [specialRarityWeightsUsed, patreonSpecialRarityWeights,
      basicSpecialRarityWeight, wlookup, sumWeights]

/-- Claim C1, amended: for a patreon actor the weights actually used keep the
shiny entry at its base weight `s` while the unknown entry drops by `2*s` to
`u - 2*s`; the total therefore shrinks by `2*s` instead of being preserved. -/
theorem patreon_shiny_weights_amended (t : List (SpecialRarity × ℚ)) (s u : ℚ)
    (hs : wlookup t SpecialRarity.shiny = some s)
    (hu : wlookup t SpecialRarity.unknown = some u) :
    wlookup (specialRarityWeightsUsed true t) SpecialRarity.shiny = some s ∧
      wlookup (specialRarityWeightsUsed true t) SpecialRarity.unknown = some (u - 2 * s) := by
  simp only [specialRarityWeightsUsed, if_true, patreonSpecialRarityWeights]
  rw [wlookup_subtract_at_unknown, wlookup_subtract_at_unknown, hs, hu]
  simp

/-- Claim C1, witness for the amended statement at the basic weight table. -/
theorem patreon_shiny_weights_amended_witness :
    wlookup (specialRarityWeightsUsed true basicSpecialRarityWeight) SpecialRarity.shiny =
        some (1/20 : ℚ) ∧
      wlookup (specialRarityWeightsUsed true basicSpecialRarityWeight) SpecialRarity.unknown =
        some ((1999/20 : ℚ) - 2 * (1/20)) :=
  patreon_shiny_weights_amended basicSpecialRarityWeight (1/20) (1999/20)
    (by simp [basicSpecialRarityWeight, wlookup]) (by simp [basicSpecialRarityWeight, wlookup])

/-- Claim C4, counterexample: a patreon buyer of one item with base price 10
is charged the full 10, not `round(0.8 * 10) = 8`. -/
theorem patreon_discount_not_charged_counterexample :
    (itemBuyPricing 10 1 true).total = 10 ∧
      pyRoundHalfEven ((4/5 : ℚ) * 10) = 8 ∧ (10 : Int) ≠ 8 := by
  refine ⟨by simp [itemBuyPricing], ?_, by decide⟩
  have h8 : ((4 : ℚ)/5) * 10 = 8 := by norm_num
  rw [h8]
  norm_num [pyRoundHalfEven]

/-- Claim C4, amended: the charged total is the undiscounted
`price * amount` regardless of patreon status; only the displayed unit price
carries the 20% discount. -/
theorem patreon_charged_full_price (price amountToBuy : Nat) :
    (itemBuyPricing price amountToBuy true).total = (price : Int) * (amountToBuy : Int) ∧
      (itemBuyPricing price amountToBuy true).total =
        (itemBuyPricing price amountToBuy false).total := by
  constructor <;> simp [itemBuyPricing]

/-- Claim C5: at backpack level 5 with 2500 cards held, the drop-grab path
rejects the grab as backpack-full while the pack-claim path and the
collection display treat level 5 as unlimited. -/
theorem backpack_level_five_grab_limit_bug :
    dropGrabBackpackFull 2500 5 ∧ ¬ packUseBackpackFull 2500 5 ∧
      collectionCardLimit 5 = none := by
  refine ⟨?_, ?_, ?_⟩
  · unfold dropGrabBackpackFull
    decide
  · unfold packUseBackpackFull
    decide
  · unfold collectionCardLimit
    decide

/-- Claim C10: a cooldown-gated confirmation session that expires invokes no
commit and resets the cooldown; one that is declined invokes no commit and
does not reset the cooldown. -/
theorem confirmation_timeout_and_decline :
    ∀ gated : Bool,
      (waitForConfirmation SessionOutcome.expired gated).commitInvoked = false ∧
        (waitForConfirmation SessionOutcome.expired gated).cooldownReset = gated ∧
        (waitForConfirmation SessionOutcome.declined gated).commitInvoked = false ∧
        (waitForConfirmation SessionOutcome.declined gated).cooldownReset = false := by
  decide

/-- Claim C9: in pack mode the card condition is drawn from the fixed
override table, ignoring the fixed condition argument and the weight table,
and every condition it can produce is pristine, mint or near mint. -/
theorem pack_mode_condition_override (fixedCondition : Option Condition)
    (conditionTable : List (Condition × ℚ)) (tableChoice packChoice : ℚ) (c : Condition)
    (h : generateCardCondition true fixedCondition conditionTable tableChoice packChoice =
      some c) :
    generateCardCondition true fixedCondition conditionTable tableChoice packChoice =
        choose packConditionWeight packChoice ∧
      (c = Condition.pristine ∨ c = Condition.mint ∨ c = Condition.near_mint) := by
  refine ⟨rfl, ?_⟩
  have h2 : choose packConditionWeight packChoice = some c := h
  simp only [packConditionWeight, choose] at h2
  split_ifs at h2 <;> simp_all

/-- Claim C9, witness: a pack draw with selector 5 lands on pristine. -/
theorem pack_mode_condition_override_witness :
    Condition.pristine = Condition.pristine ∨ Condition.pristine = Condition.mint ∨
      Condition.pristine = Condition.near_mint :=
  (pack_mode_condition_override none [] 0 5 Condition.pristine
    (by norm_num [generateCardCondition, choose, packConditionWeight])).2

/-- Claim C3, counterexample: a non-shiny first card and a shiny second card
of the same rarity pass every precheck, so the fusion proceeds to the
confirmation prompt instead of being rejected. -/
theorem fusion_shiny_mismatch_counterexample :
    dullCard.specialRarity ≠ SpecialRarity.shiny ∧
      shinyCard.specialRarity = SpecialRarity.shiny ∧
      fusionPrecheck dullCard shinyCard = FusionCheck.proceed := by
  refine ⟨by decide, by decide, ?_⟩
  decide

/-- Claim C3, amended: for two cards of identical rarity the shiny-mismatch
rejection fires exactly when the first card is shiny and the second is not;
with the orders swapped the fusion proceeds past the shiny check. -/
theorem fusion_shiny_mismatch_first_order_only (card1 card2 : CardRow)
    (h : card1.rarity = card2.rarity) :
    fusionPrecheck card1 card2 = FusionCheck.rejectShinyMismatch ↔
      (card1.specialRarity = SpecialRarity.shiny ∧
        card2.specialRarity ≠ SpecialRarity.shiny) := by
  unfold fusionPrecheck
  rw [if_neg (by simp [h])]
  by_cases h1 : card1.specialRarity = SpecialRarity.shiny <;>
    by_cases h2 : card2.specialRarity = SpecialRarity.shiny <;>
      simp [h1, h2] <;> split <;> simp_all
  all_goals exact fun hEq => h2 hEq.symm

/-- Claim C3, witness for the amended statement: shiny first, non-shiny
second, identical rarity, is rejected. -/
theorem fusion_shiny_mismatch_first_order_only_witness :
    fusionPrecheck shinyCard dullCard = FusionCheck.rejectShinyMismatch :=
  (fusion_shiny_mismatch_first_order_only shinyCard dullCard rfl).mpr
    (by constructor <;> decide)

/-- Claim C6: burning a card that is locked or of a too-valuable rarity is
rejected before any reward is computed, resets the command cooldown, and
leaves the player state untouched. -/
theorem burn_locked_or_valuable_rejected (c : CardRow) (rarityToSilver daysSinceCreation : Nat)
    (s : PlayerState)
    (h : c.rarity ∈ Rarity.valuableRarities ∨ c.locked = true) :
    (handleSingleCardBurnRun c rarityToSilver daysSinceCreation s).2 = s ∧
      (handleSingleCardBurnRun c rarityToSilver daysSinceCreation s).1.cooldownReset = true ∧
      ∀ totalSilver totalStar,
        (handleSingleCardBurnRun c rarityToSilver daysSinceCreation s).1.result ≠
          BurnResult.proposed totalSilver totalStar := by
  refine ⟨rfl, ?_, ?_⟩ <;>
    · unfold handleSingleCardBurnRun handleSingleCardBurn
      rcases h with h | h
      · simp [h]
      · by_cases hv : c.rarity ∈ Rarity.valuableRarities <;> simp [hv, h]

/-- Claim C6, witness: a locked common card. -/
theorem burn_locked_or_valuable_rejected_witness :
    (handleSingleCardBurnRun lockedCommonCard 25 10 poorCrafter).2 = poorCrafter ∧
      (handleSingleCardBurnRun lockedCommonCard 25 10 poorCrafter).1.cooldownReset = true ∧
      ∀ totalSilver totalStar,
        (handleSingleCardBurnRun lockedCommonCard 25 10 poorCrafter).1.result ≠
          BurnResult.proposed totalSilver totalStar :=
  burn_locked_or_valuable_rejected lockedCommonCard 25 10 poorCrafter (Or.inr rfl)

/-- Claim C7: for a burnable card, the proposed reward is the sampled base
silver plus `min(days, 60)` times `baseSilver / 4`, and the condition star
yield plus `min(days, 60)` times `starYield / 4` (a linear age bonus). -/
theorem burn_reward_age_bonus (c : CardRow) (lo hi rarityToSilver daysSinceCreation : Nat)
    (hv : c.rarity ∉ Rarity.valuableRarities) (hl : c.locked = false)
    (hr : c.rarity.toSilver = some (lo, hi))
    (hlo : lo ≤ rarityToSilver) (hhi : rarityToSilver ≤ hi) :
    (handleSingleCardBurn c rarityToSilver daysSinceCreation).result =
      BurnResult.proposed
        (rarityToSilver + min daysSinceCreation 60 * (rarityToSilver / 4))
        (c.condition.toStar + min daysSinceCreation 60 * (c.condition.toStar / 4)) := by
  unfold handleSingleCardBurn
  simp [hv, hl, List.sum_replicate, smul_eq_mul]

/-- Claim C7, witness: a common card with base silver 25 aged 10 days yields
`25 + 10*6 = 85` silver and, in good condition, `33 + 10*8 = 113` star. -/
theorem burn_reward_age_bonus_witness :
    (handleSingleCardBurn plainCommonCard 25 10).result =
      BurnResult.proposed (25 + min 10 60 * (25 / 4))
        (Condition.good.toStar + min 10 60 * (Condition.good.toStar / 4)) :=
  burn_reward_age_bonus plainCommonCard 10 40 25 10 (by decide) rfl rfl
    (by decide) (by decide)

/-- Claim C2, counterexample: at the final craft confirmation the star
balance is not re-checked: a player holding 0 stars (below the cost of 82)
but satisfying the card and item requirements has the craft committed, cards
and items consumed, and the balance driven negative. -/
theorem craft_final_ignores_star_counterexample :
    poorCrafter.star < 82 ∧
      confirmForgeCraftFinal 82 [("Blob", 1)] [(Item.fusion_crystal, 1)] ["abc123"]
          craftedCard poorCrafter =
        (CraftOutcome.crafted,
          { star := -82, cards := [craftedCard], inventory := [(Item.fusion_crystal, 0)] }) := by
  constructor
  · decide
  · rfl

/-- Claim C2, amended: the final craft confirmation re-validates the
character-card and item requirements, and when either fails the craft is
rejected (with a cooldown reset in the source) and no star, item or card is
touched; the star balance, however, is checked only at the first
confirmation step and not re-validated here. -/
theorem craft_final_revalidates_materials (starCost : Int) (reqChars : List (String × Int))
    (reqItems : List (Item × Int)) (requiredCardIds : List String) (crafted : CardRow)
    (s : PlayerState)
    (h : checkCharacters reqChars s.cards ≠ none ∨ checkItems reqItems s.inventory ≠ none) :
    (confirmForgeCraftFinal starCost reqChars reqItems requiredCardIds crafted s).1 ≠
        CraftOutcome.crafted ∧
      (confirmForgeCraftFinal starCost reqChars reqItems requiredCardIds crafted s).2 = s := by
  unfold confirmForgeCraftFinal
  cases hc : checkCharacters reqChars s.cards with
  | some name => simp
  | none =>
    cases hi : checkItems reqItems s.inventory with
    | some it => simp
    | none =>
      rcases h with h | h
      · exact absurd hc h
      · exact absurd hi h

/-- Claim C2, witness for the amended statement: a player with an empty
inventory fails the item re-check and nothing is consumed. -/
theorem craft_final_revalidates_materials_witness :
    (confirmForgeCraftFinal 82 [] [(Item.fusion_crystal, 1)] [] craftedCard emptyHanded).1 ≠
        CraftOutcome.crafted ∧
      (confirmForgeCraftFinal 82 [] [(Item.fusion_crystal, 1)] [] craftedCard emptyHanded).2 =
        emptyHanded :=
  craft_final_revalidates_materials 82 [] [(Item.fusion_crystal, 1)] [] craftedCard
    emptyHanded (Or.inr (by decide))

/-- Claim C8: every pack tier produces exactly its fixed card budget (7 for
rare and epic packs, 5 for mythic, legendary and exotic packs) for every
admissible randomized sub-count and either leak outcome; a successful leak
deducts one card from the top band and contributes exactly one card of the
next rarity tier up, and the exotic pack has no leak at all. -/
theorem pack_card_budget_invariant :
    (∀ r leak, 2 ≤ r → r ≤ 4 → packTotal (useRareCardPack r leak) = 7 ∧
      (useRareCardPack r true).leaked = [(Rarity.epic, 1)] ∧
      (useRareCardPack r false).leaked = [] ∧
      (useRareCardPack r true).bands.head? = some (Rarity.rare, r - 1) ∧
      (useRareCardPack r false).bands.head? = some (Rarity.rare, r)) ∧
    (∀ e r leak, 1 ≤ e → e ≤ 2 → r ≤ 7 - e → packTotal (useEpicCardPack e r leak) = 7 ∧
      (useEpicCardPack e r true).leaked = [(Rarity.mythic, 1)] ∧
      (useEpicCardPack e r false).leaked = [] ∧
      (useEpicCardPack e r true).bands.head? = some (Rarity.epic, e - 1) ∧
      (useEpicCardPack e r false).bands.head? = some (Rarity.epic, e)) ∧
    (∀ e leak, 1 ≤ e → e ≤ 2 → packTotal (useMythicCardPack e leak) = 5 ∧
      (useMythicCardPack e true).leaked = [(Rarity.legendary, 1)] ∧
      (useMythicCardPack e false).leaked = [] ∧
      (useMythicCardPack e true).bands.head? = some (Rarity.mythic, 0) ∧
      (useMythicCardPack e false).bands.head? = some (Rarity.mythic, 1)) ∧
    (∀ m leak, m ≤ 1 → packTotal (useLegendaryCardPack m leak) = 5 ∧
      (useLegendaryCardPack m true).leaked = [(Rarity.exotic, 1)] ∧
      (useLegendaryCardPack m false).leaked = [] ∧
      (useLegendaryCardPack m true).bands.head? = some (Rarity.legendary, 0) ∧
      (useLegendaryCardPack m false).bands.head? = some (Rarity.legendary, 1)) ∧
    (∀ x g m, x ≤ 1 → g ≤ 2 → m ≤ 1 → packTotal (useExoticCardPack x g m) = 5 ∧
      (useExoticCardPack x g m).leaked = []) := by
  refine ⟨?_, ?_, ?_, ?_, ?_⟩
  · intro r leak h1 h2
    cases leak <;>
      refine ⟨?_, rfl, rfl, rfl, rfl⟩ <;>
        · simp [packTotal, useRareCardPack, generateLeakedCard]
          omega
  · intro e r leak h1 h2 h3
    cases leak <;>
      refine ⟨?_, rfl, rfl, rfl, rfl⟩ <;>
        · simp [packTotal, useEpicCardPack, generateLeakedCard]
          omega
  · intro e leak h1 h2
    cases leak <;>
      refine ⟨?_, rfl, rfl, rfl, rfl⟩ <;>
        · simp [packTotal, useMythicCardPack, generateLeakedCard]
          omega
  · intro m leak h1
    interval_cases m <;>
      cases leak <;>
        refine ⟨?_, rfl, rfl, rfl, rfl⟩ <;>
          · simp [packTotal, useLegendaryCardPack, generateLeakedCard]
  · intro x g m h1 h2 h3
    refine ⟨?_, rfl⟩
    simp [packTotal, useExoticCardPack]
    omega

/-- Claim C8, witness: concrete sub-counts for each pack tier. -/
theorem pack_card_budget_invariant_witness :
    packTotal (useRareCardPack 3 true) = 7 ∧ packTotal (useEpicCardPack 2 3 true) = 7 ∧
      packTotal (useMythicCardPack 1 true) = 5 ∧ packTotal (useLegendaryCardPack 0 true) = 5 ∧
      packTotal (useExoticCardPack 1 2 1) = 5 :=
  ⟨(pack_card_budget_invariant.1 3 true (by decide) (by decide)).1,
    (pack_card_budget_invariant.2.1 2 3 true (by decide) (by decide) (by decide)).1,
    (pack_card_budget_invariant.2.2.1 1 true (by decide) (by decide)).1,
    (pack_card_budget_invariant.2.2.2.1 0 true (by decide)).1,
    (pack_card_budget_invariant.2.2.2.2 1 2 1 (by decide) (by decide) (by decide)).1⟩

end Fancards
